import Mathlib

/-!
Shallow embedding of the turbine container runtime (nadmax/turbine).

Each Rust type and function under src/ that the verified claims touch is
translated into an executable Lean definition.  External effects (the host
filesystem, child-process spawns, writes to /proc) are made explicit: the
filesystem is a state value threaded through the functions, and every
fallible external call is an oracle parameter, so a run of the embedded
code is a pure computation.  Rust HashMaps are modelled as association
lists with replace-or-append insert; u16/u32/u64 values are Nat (none of
the modelled code overflows); f64 resource quotas are Rat (the code only
compares them against literals).
-/

set_option autoImplicit false

deriving instance DecidableEq for Except

namespace Turbine

/-! ### Association-list model of HashMap -/

def lookupA {κ α : Type} [DecidableEq κ] : List (κ × α) → κ → Option α
  | [], _ => none
  | (k, v) :: rest, key => if k = key then some v else lookupA rest key

def insertA {κ α : Type} [DecidableEq κ] : List (κ × α) → κ → α → List (κ × α)
  | [], key, v => [(key, v)]
  | (k, w) :: rest, key, v =>
    if k = key then (k, v) :: rest else (k, w) :: insertA rest key v

def removeA {κ α : Type} [DecidableEq κ] : List (κ × α) → κ → List (κ × α)
  | [], _ => []
  | (k, w) :: rest, key => if k = key then rest else (k, w) :: removeA rest key

def containsKeyA {κ α : Type} [DecidableEq κ] (m : List (κ × α)) (key : κ) : Bool :=
  (lookupA m key).isSome

/-- `needle` occurs as a contiguous substring of the character list. -/
def occursInChars (needle : List Char) : List Char → Bool
  | [] => needle.isEmpty
  | c :: rest => needle.isPrefixOf (c :: rest) || occursInChars needle rest

/-- Rust `str::contains` on string slices. -/
def strHas (hay needle : String) : Bool :=
  occursInChars needle.data hay.data

/-- Rust `str::starts_with`, computed on the character list. -/
def strStarts (s pre : String) : Bool :=
  pre.data.isPrefixOf s.data

/-! ### src/error.rs -/

/-- `TurbineError` of src/error.rs; the io/serde payloads are kept as their
message text. -/
inductive TurbineError where
  | ConfigError (msg : String)
  | ContainerError (msg : String)
  | NetworkError (msg : String)
  | FilesystemError (msg : String)
  | ProcessError (msg : String)
  | SecurityError (msg : String)
  | RuntimeError (msg : String)
  | IoError (msg : String)
  | SerdeError (msg : String)
  | SerdeSerError (msg : String)
deriving DecidableEq

/-- `impl From<anyhow::Error> for TurbineError` (src/error.rs lines 54-58):
an anyhow error (as produced by `ContainerConfig::validate`) becomes
`RuntimeError` with the error's text. -/
def TurbineError.fromAnyhow (msg : String) : TurbineError :=
  .RuntimeError msg

/-! ### src/config.rs data model -/

structure PortMapping where
  host_port : Nat
  container_port : Nat
  protocol : String
deriving DecidableEq

structure VolumeMount where
  host_path : String
  container_path : String
  readonly : Bool
deriving DecidableEq

structure ResourceLimits where
  memory_mb : Option Nat
  cpu_quota : Option Rat
  disk_mb : Option Nat
  max_processes : Option Nat
deriving DecidableEq

/-- `NetworkConfig` of src/config.rs (the per-container network settings;
distinct from the address-family enum of src/network.rs, embedded below). -/
structure NetworkSettings where
  bridge : Option String
  dns : List String
  hostname : Option String
deriving DecidableEq

inductive RestartPolicy where
  | Never
  | Always
  | OnFailure
  | UnlessStopped
deriving DecidableEq

structure ContainerConfig where
  name : String
  image : String
  command : List String
  working_dir : Option String
  environment : List (String × String)
  ports : List PortMapping
  volumes : List VolumeMount
  resources : ResourceLimits
  network : NetworkSettings
  user : Option String
  uid : Option Nat
  gid : Option Nat
  groups : Option (List Nat)
  restart_policy : RestartPolicy
deriving DecidableEq

/-- `impl Default for ResourceLimits`. -/
def ResourceLimits.default : ResourceLimits :=
  { memory_mb := some 512
    cpu_quota := some 1
    disk_mb := some 1024
    max_processes := some 256 }

/-- `impl Default for NetworkConfig` in src/config.rs. -/
def NetworkSettings.default : NetworkSettings :=
  { bridge := none
    dns := ["8.8.8.8", "8.8.4.4"]
    hostname := none }

/-- `impl Default for ContainerConfig`. -/
def ContainerConfig.default : ContainerConfig :=
  { name := ""
    image := ""
    command := ["/bin/sh"]
    working_dir := some ("/app")
    environment := []
    ports := []
    volumes := []
    resources := ResourceLimits.default
    network := NetworkSettings.default
    user := none
    uid := none
    gid := none
    groups := none
    restart_policy := .Never }

/-! ### ContainerConfig::validate (src/config.rs lines 118-146)

`volume.host_path.exists()` is host filesystem state; it enters as the
oracle `ex`.  The Rust function returns `anyhow::Result<()>`, embedded as
`Except String Unit` carrying the anyhow message. -/

/-- The `for port in &self.ports` loop of `validate`. -/
def validatePorts : List PortMapping → Except String Unit
  | [] => .ok ()
  | p :: rest =>
    if p.host_port = 0 ∨ p.container_port = 0 then
      .error ("Invalid port mapping")
    else validatePorts rest

/-- The `for volume in &self.volumes` loop of `validate` (the Rust message
formats the path with `{:?}`, hence the quotes). -/
def validateVolumes (ex : String → Bool) : List VolumeMount → Except String Unit
  | [] => .ok ()
  | v :: rest =>
    if ex v.host_path = false then
      .error ("Host path does not exist: \"" ++ v.host_path ++ "\"")
    else validateVolumes ex rest

/-- `self.user.as_ref().map_or(false, |u| u != "root")` in `validate`. -/
def userNotRoot : Option String → Bool
  | some u => u != "root"
  | none => false

/-- `ContainerConfig::validate`. -/
def ContainerConfig.validate (ex : String → Bool) (cfg : ContainerConfig) :
    Except String Unit :=
  if cfg.name = "" then .error ("Container name cannot be empty")
  else if cfg.image = "" then .error ("Container image cannot be empty")
  else match validatePorts cfg.ports with
  | .error e => .error e
  | .ok () =>
    match validateVolumes ex cfg.volumes with
    | .error e => .error e
    | .ok () =>
      match cfg.uid with
      | some uid =>
        if uid = 0 ∧ userNotRoot cfg.user = true then
          .error ("UID 0 should only be used with user \u0027root\u0027")
        else .ok ()
      | none => .ok ()

/-- The exact rejection condition of `ContainerConfig::validate`, read off
the source: note the uid clause fires only when a user name is present
(`map_or(false, ..)`). -/
def validateRejects (ex : String → Bool) (cfg : ContainerConfig) : Prop :=
  cfg.name = "" ∨ cfg.image = "" ∨
  (∃ p ∈ cfg.ports, p.host_port = 0 ∨ p.container_port = 0) ∨
  (∃ v ∈ cfg.volumes, ex v.host_path = false) ∨
  (cfg.uid = some 0 ∧ ∃ u, cfg.user = some u ∧ u ≠ "root")

/-! ### src/container.rs -/

inductive ContainerState where
  | Created
  | Running
  | Stopped
  | Paused
  | Error (msg : String)
deriving DecidableEq

structure Container where
  id : String
  config : ContainerConfig
  state : ContainerState
  pid : Option Nat
  root_path : String
  created_at : Nat
  started_at : Option Nat
  stopped_at : Option Nat
deriving DecidableEq

/-- `Container::new`: the fresh UUID and the clock are external inputs, so
they enter as the parameters `id` and `now`. -/
def Container.new (config : ContainerConfig) (id : String) (now : Nat) : Container :=
  { id := id
    config := config
    state := .Created
    pid := none
    root_path := ("/tmp/turbine/") ++ id
    created_at := now
    started_at := none
    stopped_at := none }

def Container.is_running (c : Container) : Bool :=
  c.state = ContainerState.Running

def Container.is_stopped (c : Container) : Bool :=
  c.state = ContainerState.Stopped

/-- `Container::set_state` (src/container.rs lines 53-66): entering Running
stamps `started_at` and clears `stopped_at`; entering Stopped stamps
`stopped_at` and clears the pid; other target states only overwrite
`state`. -/
def Container.set_state (c : Container) (state : ContainerState) (now : Nat) : Container :=
  match state with
  | .Running => { c with started_at := some now, stopped_at := none, state := state }
  | .Stopped => { c with stopped_at := some now, pid := none, state := state }
  | _ => { c with state := state }

def Container.set_pid (c : Container) (pid : Nat) : Container :=
  { c with pid := some pid }

/-! ### src/runtime.rs public operations

Every public operation first looks its container up in the registry and
then works on that one record under the registry's write lock, so each is
embedded as a function of the found `Container` record.  The fallible
manager calls it delegates to (security setup, process spawn/stop/signal)
enter as `Except` oracles; each operation returns its result together with
the record as the registry holds it afterwards (on an error path the code
returns before mutating the record, so the input record is returned
unchanged). -/

/-- `TurbineRuntime::start_container` (lines 72-89): rejects only a
Running container, then runs security setup, spawns the leader, stores the
pid and enters Running. -/
def start_container (c : Container) (sec : Except TurbineError Unit)
    (spawn : Except TurbineError Nat) (now : Nat) :
    Except TurbineError Unit × Container :=
  if c.is_running then
    (.error (.ContainerError ("Container is already running")), c)
  else
    match sec with
    | .error e => (.error e, c)
    | .ok () =>
      match spawn with
      | .error e => (.error e, c)
      | .ok pid => (.ok (), (c.set_pid pid).set_state .Running now)

/-- `TurbineRuntime::stop_container` (lines 91-105): rejects any
non-Running container (a Paused one included), then stops the process and
enters Stopped. -/
def stop_container (c : Container) (procStop : Except TurbineError Unit) (now : Nat) :
    Except TurbineError Unit × Container :=
  if !c.is_running then
    (.error (.ContainerError ("Container is not running")), c)
  else
    match procStop with
    | .error e => (.error e, c)
    | .ok () => (.ok (), c.set_state .Stopped now)

/-- `TurbineRuntime::pause_container` (lines 113-127). -/
def pause_container (c : Container) (procPause : Except TurbineError Unit) (now : Nat) :
    Except TurbineError Unit × Container :=
  if !c.is_running then
    (.error (.ContainerError ("Container is not running")), c)
  else
    match procPause with
    | .error e => (.error e, c)
    | .ok () => (.ok (), c.set_state .Paused now)

/-- `TurbineRuntime::resume_container` (lines 129-143). -/
def resume_container (c : Container) (procResume : Except TurbineError Unit) (now : Nat) :
    Except TurbineError Unit × Container :=
  if c.state ≠ ContainerState.Paused then
    (.error (.ContainerError ("Container is not paused")), c)
  else
    match procResume with
    | .error e => (.error e, c)
    | .ok () => (.ok (), c.set_state .Running now)

/-- The state-machine guard of `TurbineRuntime::remove_container`
(lines 149-153); the teardown that follows a passed guard touches the
other managers and is outside the record-level state machine. -/
def remove_container_guard (c : Container) (force : Bool) : Except TurbineError Unit :=
  if c.is_running ∧ force = false then
    .error (.ContainerError ("Container is running. Use force=true to remove running container"))
  else .ok ()

/-- The state guard of `TurbineRuntime::get_container_logs` (lines 195-197). -/
def get_container_logs_guard (c : Container) : Except TurbineError Unit :=
  if !c.is_running then .error (.ContainerError ("Container is not running"))
  else .ok ()

/-- The state guard of `TurbineRuntime::execute_in_container` (lines 210-212). -/
def execute_in_container_guard (c : Container) : Except TurbineError Unit :=
  if !c.is_running then .error (.ContainerError ("Container is not running"))
  else .ok ()

/-- The state guard of `TurbineRuntime::get_container_stats` (lines 251-253). -/
def get_container_stats_guard (c : Container) : Except TurbineError Unit :=
  if !c.is_running then .error (.ContainerError ("Container is not running"))
  else .ok ()

/-! ### src/network.rs -/

structure Ipv4Addr where
  o0 : Nat
  o1 : Nat
  o2 : Nat
  o3 : Nat
deriving DecidableEq

structure Ipv6Addr where
  s0 : Nat
  s1 : Nat
  s2 : Nat
  s3 : Nat
  s4 : Nat
  s5 : Nat
  s6 : Nat
  s7 : Nat
deriving DecidableEq

inductive IpAddr where
  | V4 (addr : Ipv4Addr)
  | V6 (addr : Ipv6Addr)
deriving DecidableEq

/-- `NetworkConfig` of src/network.rs (the address-family enum); the source
calls the mask-length fields `prefix`, here `plen`. -/
inductive NetworkConfig where
  | IPv4 (subnet : Ipv4Addr) (plen : Nat)
  | IPv6 (subnet : Ipv6Addr) (plen : Nat)
  | DualStack (ipv4_subnet : Ipv4Addr) (ipv4_plen : Nat)
      (ipv6_subnet : Ipv6Addr) (ipv6_plen : Nat)
deriving DecidableEq

/-- `impl Default for NetworkConfig` in src/network.rs: 10.88.0.0/24. -/
def NetworkConfig.default : NetworkConfig :=
  .IPv4 ⟨10, 88, 0, 0⟩ 24

/-- The mutable state of `NetworkManager`; `use_slirp4netns` is probed from
the host PATH at construction, so it is part of the state. -/
structure NetworkManager where
  bridge_name : String
  network_config : NetworkConfig
  allocated_ips : List (String × List IpAddr)
  port_mappings : List (Nat × String)
  container_ports : List (String × List PortMapping)
  netns_dir : String
  use_slirp4netns : Bool
deriving DecidableEq

/-- `NetworkManager::new` with the slirp4netns probe result supplied. -/
def NetworkManager.new (bridge_name : String) (slirp : Bool) : NetworkManager :=
  { bridge_name := bridge_name
    network_config := NetworkConfig.default
    allocated_ips := []
    port_mappings := []
    container_ports := []
    netns_dir := ("/tmp/turbine-netns")
    use_slirp4netns := slirp }

/-- `NetworkManager::with_config` with the slirp4netns probe result supplied. -/
def NetworkManager.with_config (bridge_name : String) (config : NetworkConfig)
    (slirp : Bool) : NetworkManager :=
  { NetworkManager.new bridge_name slirp with network_config := config }

/-- `self.allocated_ips.values().any(|ips| ips.contains(&ip_addr))`. -/
def takenIn (allocated : List (String × List IpAddr)) (ip : IpAddr) : Bool :=
  allocated.any (fun kv => decide (ip ∈ kv.2))

/-- The scan loop of `allocate_ipv4`: try host-part `ip_suffix`, stop with
a NetworkError once the u8 suffix reaches 255.  The structural `fuel`
argument only bounds the Nat recursion; entered with fuel 255 at suffix 2
(as `allocate_ipv4` does), the source's `ip_suffix == 255` exit always
fires before the fuel runs out, so the fuel-0 branch repeats the same
error and is unreachable. -/
def allocScanV4 (taken : IpAddr → Bool) (o0 o1 o2 : Nat) :
    Nat → Nat → Except TurbineError Ipv4Addr
  | _, 0 => .error (.NetworkError ("No available IPv4 addresses in subnet"))
  | ip_suffix, fuel + 1 =>
    let ip : Ipv4Addr := ⟨o0, o1, o2, ip_suffix⟩
    if taken (.V4 ip) = false then .ok ip
    else if ip_suffix + 1 = 255 then
      .error (.NetworkError ("No available IPv4 addresses in subnet"))
    else allocScanV4 taken o0 o1 o2 (ip_suffix + 1) fuel

/-- The scan loop of `allocate_ipv6` (u16 suffix, exit at 0xFFFF); the
error message interpolates the container id.  Fuel as in `allocScanV4`. -/
def allocScanV6 (taken : IpAddr → Bool) (container_id : String)
    (s0 s1 s2 s3 s4 s5 s6 : Nat) :
    Nat → Nat → Except TurbineError Ipv6Addr
  | _, 0 => .error (.NetworkError
      (("No available IPv6 addresses in subnet for container ") ++ container_id))
  | host_suffix, fuel + 1 =>
    let ip : Ipv6Addr := ⟨s0, s1, s2, s3, s4, s5, s6, host_suffix⟩
    if taken (.V6 ip) = false then .ok ip
    else if host_suffix + 1 = 65535 then
      .error (.NetworkError
        (("No available IPv6 addresses in subnet for container ") ++ container_id))
    else allocScanV6 taken container_id s0 s1 s2 s3 s4 s5 s6 (host_suffix + 1) fuel

/-- The `if let Some(existing_ips) ... find_map` opening of `allocate_ipv4`. -/
def existingV4 (m : NetworkManager) (container_id : String) : Option Ipv4Addr :=
  (lookupA m.allocated_ips container_id).bind fun ips =>
    ips.findSome? fun ip => match ip with | .V4 v4 => some v4 | .V6 _ => none

/-- The `if let Some(existing_ips) ... find_map` opening of `allocate_ipv6`. -/
def existingV6 (m : NetworkManager) (container_id : String) : Option Ipv6Addr :=
  (lookupA m.allocated_ips container_id).bind fun ips =>
    ips.findSome? fun ip => match ip with | .V6 v6 => some v6 | .V4 _ => none

/-- `NetworkManager::allocate_ipv4` (src/network.rs lines 323-351). -/
def NetworkManager.allocate_ipv4 (m : NetworkManager) (container_id : String)
    (subnet : Ipv4Addr) : Except TurbineError Ipv4Addr :=
  match existingV4 m container_id with
  | some v4 => .ok v4
  | none => allocScanV4 (takenIn m.allocated_ips) subnet.o0 subnet.o1 subnet.o2 2 255

/-- `NetworkManager::allocate_ipv6` (src/network.rs lines 353-383). -/
def NetworkManager.allocate_ipv6 (m : NetworkManager) (container_id : String)
    (subnet : Ipv6Addr) : Except TurbineError Ipv6Addr :=
  match existingV6 m container_id with
  | some v6 => .ok v6
  | none =>
    allocScanV6 (takenIn m.allocated_ips) container_id
      subnet.s0 subnet.s1 subnet.s2 subnet.s3 subnet.s4 subnet.s5 subnet.s6 2 65535

/-- `NetworkManager::allocate_ips` (src/network.rs lines 295-321): an id
already in `allocated_ips` gets its stored list back unchanged; otherwise
one address per family of the configured stack is scanned for and the
resulting list is stored. -/
def NetworkManager.allocate_ips (m : NetworkManager) (container_id : String) :
    Except TurbineError (List IpAddr) × NetworkManager :=
  match lookupA m.allocated_ips container_id with
  | some existing_ips => (.ok existing_ips, m)
  | none =>
    match m.network_config with
    | .IPv4 subnet _ =>
      match m.allocate_ipv4 container_id subnet with
      | .error e => (.error e, m)
      | .ok v4 =>
        let ips := [IpAddr.V4 v4]
        (.ok ips, { m with allocated_ips := insertA m.allocated_ips container_id ips })
    | .IPv6 subnet _ =>
      match m.allocate_ipv6 container_id subnet with
      | .error e => (.error e, m)
      | .ok v6 =>
        let ips := [IpAddr.V6 v6]
        (.ok ips, { m with allocated_ips := insertA m.allocated_ips container_id ips })
    | .DualStack ipv4_subnet _ ipv6_subnet _ =>
      match m.allocate_ipv4 container_id ipv4_subnet with
      | .error e => (.error e, m)
      | .ok v4 =>
        match m.allocate_ipv6 container_id ipv6_subnet with
        | .error e => (.error e, m)
        | .ok v6 =>
          let ips := [IpAddr.V4 v4, IpAddr.V6 v6]
          (.ok ips, { m with allocated_ips := insertA m.allocated_ips container_id ips })

/-- The `for port in &container.config.ports` loop of
`setup_slirp4netns_network`: mutations made before a conflict is hit stay
in the map, as they do through `&mut self` in the source. -/
def slirpPortLoop (container_id : String) (pm : List (Nat × String)) :
    List PortMapping → Except TurbineError Unit × List (Nat × String)
  | [] => (.ok (), pm)
  | p :: rest =>
    if containsKeyA pm p.host_port = true then
      (.error (.NetworkError (("Port ") ++ toString p.host_port ++ (" is already in use"))), pm)
    else slirpPortLoop container_id (insertA pm p.host_port container_id) rest

/-- `NetworkManager::setup_slirp4netns_network` (lines 177-197). -/
def NetworkManager.setup_slirp4netns_network (m : NetworkManager) (c : Container) :
    Except TurbineError Unit × NetworkManager :=
  match m.allocate_ips c.id with
  | (.error e, m1) => (.error e, m1)
  | (.ok _container_ips, m1) =>
    match slirpPortLoop c.id m1.port_mappings c.config.ports with
    | (.error e, pm) => (.error e, { m1 with port_mappings := pm })
    | (.ok (), pm) => (.ok (), { m1 with port_mappings := pm })

/-- The `for ip in &container_ips` loop of `setup_user_namespace_network`:
each address is pushed to the veth end with one external `nsenter ip addr
add` call, whose success is the oracle `ifaceOk`. -/
def ifaceLoop (ifaceOk : Bool) : List IpAddr → Except TurbineError Unit
  | [] => .ok ()
  | _ :: rest =>
    if ifaceOk = false then
      .error (.NetworkError ("Failed to configure container interface: "))
    else ifaceLoop ifaceOk rest

/-- `NetworkManager::setup_user_namespace_network` (lines 199-224): veth
creation and interface configuration run external commands (oracles
`vethOk`, `ifaceOk`); no port mapping is inspected or recorded on this
path. -/
def NetworkManager.setup_user_namespace_network (m : NetworkManager)
    (vethOk ifaceOk : Bool) (c : Container) :
    Except TurbineError Unit × NetworkManager :=
  match m.allocate_ips c.id with
  | (.error e, m1) => (.error e, m1)
  | (.ok container_ips, m1) =>
    if vethOk = false then
      (.error (.NetworkError ("Failed to create veth pair in namespace: ")), m1)
    else (ifaceLoop ifaceOk container_ips, m1)

/-- `NetworkManager::setup_container_network` (lines 167-175): stores the
container's ports in `container_ports`, then branches on the mode. -/
def NetworkManager.setup_container_network (m : NetworkManager)
    (vethOk ifaceOk : Bool) (c : Container) :
    Except TurbineError Unit × NetworkManager :=
  let m0 := { m with container_ports := insertA m.container_ports c.id c.config.ports }
  if m0.use_slirp4netns then m0.setup_slirp4netns_network c
  else m0.setup_user_namespace_network vethOk ifaceOk c

/-- `NetworkManager::cleanup_container_network` (lines 385-400); the veth
deletion is best-effort and leaves no modelled state. -/
def NetworkManager.cleanup_container_network (m : NetworkManager) (c : Container) :
    Except TurbineError Unit × NetworkManager :=
  let pm := if m.use_slirp4netns then
    m.port_mappings.filter (fun kv => kv.2 ≠ c.id)
  else m.port_mappings
  (.ok (), { m with
    port_mappings := pm
    allocated_ips := removeA m.allocated_ips c.id
    container_ports := removeA m.container_ports c.id })

/-! ### src/security.rs

`SecurityManager::new()` fixes `use_user_namespaces = true` and the
restricted path list, so both are inlined.  Host filesystem probes
(existence, `metadata()`, the write test) are the `HostFs` oracle. -/

structure HostFs where
  pathExists : String → Bool
  metaOk : String → Bool
  canWrite : String → Bool

def restricted_paths : List String :=
  ["/etc/passwd", "/etc/shadow", "/etc/group", "/proc", "/sys"]

/-- The gid half of `validate_user_namespace_config`. -/
def checkGidRange (gid : Option Nat) : Except TurbineError Unit :=
  match gid with
  | some g =>
    if g > 65535 then
      .error (.SecurityError ("GID too large for user namespace mapping"))
    else .ok ()
  | none => .ok ()

/-- `SecurityManager::validate_user_namespace_config` (lines 57-84); the
`user == "root"` branch only prints a note. -/
def validate_user_namespace_config (user : Option String) (uid gid : Option Nat) :
    Except TurbineError Unit :=
  match uid with
  | some u =>
    if u > 65535 then
      .error (.SecurityError ("UID too large for user namespace mapping"))
    else checkGidRange gid
  | none => checkGidRange gid

/-- `SecurityManager::validate_volumes` (lines 229-260); the metadata read
and the `.turbine_write_test` probe are host effects, hence oracles. -/
def validate_volumes_sec (fs : HostFs) : List VolumeMount → Except TurbineError Unit
  | [] => .ok ()
  | v :: rest =>
    if restricted_paths.any (fun r => strStarts v.host_path r) = true then
      .error (.SecurityError
        (("Access to path '") ++ v.host_path ++ ("' is restricted")))
    else if fs.pathExists v.host_path = false then
      .error (.SecurityError
        (("Host path '") ++ v.host_path ++ ("' does not exist")))
    else if fs.metaOk v.host_path = false then
      .error (.SecurityError
        (("Cannot access path '") ++ v.host_path ++ ("': ")))
    else if v.readonly = false ∧ fs.canWrite v.host_path = false then
      .error (.SecurityError
        (("No write access to path '") ++ v.host_path ++ ("'")))
    else validate_volumes_sec fs rest

/-- `SecurityManager::validate_resource_limits` (lines 273-299). -/
def validate_resource_limits (resources : ResourceLimits) : Except TurbineError Unit := do
  match resources.memory_mb with
  | some memory =>
    if memory > 2048 then
      throw (.SecurityError ("Memory limit cannot exceed 2GB in rootless mode"))
  | none => pure ()
  match resources.cpu_quota with
  | some cpu =>
    if cpu > 1 then
      throw (.SecurityError ("CPU quota cannot exceed 1.0 in rootless mode"))
  | none => pure ()
  match resources.max_processes with
  | some processes =>
    if processes > 512 then
      throw (.SecurityError ("Process limit cannot exceed 512 in rootless mode"))
  | none => pure ()

/-- `SecurityManager::validate_network_security` (lines 301-310). -/
def validate_network_security : List PortMapping → Except TurbineError Unit
  | [] => .ok ()
  | p :: rest =>
    if p.host_port < 1024 then
      .error (.SecurityError
        (("Privileged port ") ++ toString p.host_port ++ (" is not allowed in rootless mode")))
    else validate_network_security rest

/-- `SecurityManager::validate_container_security` (lines 43-55) with
`use_user_namespaces = true`. -/
def validate_container_security (fs : HostFs) (c : Container) :
    Except TurbineError Unit := do
  validate_user_namespace_config c.config.user c.config.uid c.config.gid
  validate_volumes_sec fs c.config.volumes
  validate_resource_limits c.config.resources
  validate_network_security c.config.ports

/-- `SecurityManager::validate_image_security` (lines 339-353). -/
def validate_image_security (image_path : String) : Except TurbineError Unit :=
  if strHas image_path ("..") = true then
    .error (.SecurityError ("Image path contains directory traversal"))
  else if strStarts image_path ("/") = false ∧ strStarts image_path ("./") = false then
    .error (.SecurityError ("Image path must be absolute or relative to current directory"))
  else .ok ()

def dangerous_vars : List String := ["LD_PRELOAD", "LD_LIBRARY_PATH"]

/-- One round of the removal loop in `sanitize_environment`. -/
def sanitizeVar (env : List (String × String)) (var : String) :
    List (String × String) :=
  match lookupA env var with
  | some value =>
    if strHas value ("..") || strHas value ("/etc") || strHas value ("/usr") then
      removeA env var
    else env
  | none => env

/-- `SecurityManager::sanitize_environment` (lines 355-371). -/
def sanitize_environment (env : List (String × String)) : List (String × String) :=
  let env := dangerous_vars.foldl sanitizeVar env
  let env := insertA env ("TURBINE_CONTAINER") ("true")
  let env := insertA env ("TURBINE_ROOTLESS") ("true")
  insertA env ("HOME") ("/app")

/-- `SecurityManager::setup_uid_gid_mappings` (lines 145-163): the
parent-side writes into /proc/<pid>, in source order, with early abort on
a failed write.  Returns the result and the log of the writes that were
performed (path, content); `writeOk` is the host's acceptance of each
write.  The io error text interpolated into a failure message is dropped. -/
def setup_uid_gid_mappings (writeOk : String → Bool) (pid : Nat)
    (host_uid host_gid container_uid container_gid : Nat) :
    Except TurbineError Unit × List (String × String) :=
  let uid_map := toString container_uid ++ (" ") ++ toString host_uid ++ (" 1")
  let uidPath := ("/proc/") ++ toString pid ++ ("/uid_map")
  if writeOk uidPath = false then
    (.error (.SecurityError ("Failed to write uid_map: ")), [])
  else
    let sgPath := ("/proc/") ++ toString pid ++ ("/setgroups")
    if writeOk sgPath = false then
      (.error (.SecurityError ("Failed to deny setgroups: ")), [(uidPath, uid_map)])
    else
      let gid_map := toString container_gid ++ (" ") ++ toString host_gid ++ (" 1")
      let gidPath := ("/proc/") ++ toString pid ++ ("/gid_map")
      if writeOk gidPath = false then
        (.error (.SecurityError ("Failed to write gid_map: ")),
          [(uidPath, uid_map), (sgPath, ("deny"))])
      else
        (.ok (), [(uidPath, uid_map), (sgPath, ("deny")), (gidPath, gid_map)])

/-! ### src/filesystem.rs

The host filesystem as the runtime changes it: the set of paths that
exist and the append-only log of `fs::write` calls. -/

structure FsState where
  paths : List String
  writes : List (String × String)
deriving DecidableEq

def FsState.addPath (w : FsState) (p : String) : FsState :=
  if p ∈ w.paths then w else { w with paths := w.paths ++ [p] }

def FsState.writeFile (w : FsState) (p content : String) : FsState :=
  let w1 := w.addPath p
  { w1 with writes := w1.writes ++ [(p, content)] }

/-- `Path::strip_prefix("/")` as the source uses it before joining. -/
def stripLeadingSlash (s : String) : String :=
  if strStarts s ("/") then String.mk (s.data.drop 1) else s

/-- `Path::parent` on the string form: everything before the last slash
(good enough for the joined container paths the source feeds it). -/
def parentOf (p : String) : Option String :=
  if ('/') ∈ p.data then
    some (String.mk (((p.data.reverse.dropWhile (fun c => c ≠ ('/'))).drop 1).reverse))
  else none

def subdirsList : List String :=
  ["bin", "etc", "lib", "tmp", "var", "proc", "sys", "dev", "app"]

def resolvConfContent : String := "nameserver 8.8.8.8\nnameserver 8.8.4.4\n"

def passwdContent : String := "turbine:x:1000:1000:Turbine User:/app:/bin/sh\n"

def groupContent : String := "turbine:x:1000:\n"

def hostsContent : String := "127.0.0.1 localhost\n::1 localhost\n"

/-- `FilesystemManager::setup_basic_files` (lines 89-103): four fixed
writes; note the resolv.conf content is the hard-coded default list, not
`config.network.dns`. -/
def setup_basic_files (w : FsState) (root_path : String) : FsState :=
  let w := w.writeFile (root_path ++ ("/etc/resolv.conf")) resolvConfContent
  let w := w.writeFile (root_path ++ ("/etc/passwd")) passwdContent
  let w := w.writeFile (root_path ++ ("/etc/group")) groupContent
  w.writeFile (root_path ++ ("/etc/hosts")) hostsContent

/-- `FilesystemManager::create_container_root` (lines 17-36). -/
def create_container_root (w : FsState) (c : Container) :
    Except TurbineError Unit × FsState :=
  if c.root_path ∈ w.paths then
    (.error (.FilesystemError
      (("Container root already exists: \"") ++ c.root_path ++ ("\""))), w)
  else
    let w := w.addPath c.root_path
    let w := subdirsList.foldl (fun acc d => acc.addPath (c.root_path ++ ("/") ++ d)) w
    (.ok (), setup_basic_files w c.root_path)

/-- `FilesystemManager::setup_volumes` (lines 38-65): the loop body; the
`mount --bind` subprocess outcome is the oracle `mountOk` and the mount
itself leaves no modelled path. -/
def setup_volumesLoop (hostFs : HostFs) (isDir : String → Bool) (mountOk : Bool)
    (w : FsState) (root_path : String) :
    List VolumeMount → Except TurbineError Unit × FsState
  | [] => (.ok (), w)
  | v :: rest =>
    if hostFs.pathExists v.host_path = false then
      (.error (.FilesystemError
        (("Host path does not exist: \"") ++ v.host_path ++ ("\""))), w)
    else
      let target := root_path ++ ("/") ++ stripLeadingSlash v.container_path
      let w := match parentOf target with
        | some parent => w.addPath parent
        | none => w
      let w := if isDir v.host_path = true then w.addPath target else w
      if mountOk = false then
        (.error (.FilesystemError
          (("Failed to bind mount ") ++ v.host_path ++ (" to ") ++ target ++ (": "))), w)
      else setup_volumesLoop hostFs isDir mountOk w root_path rest

def setup_volumes (hostFs : HostFs) (isDir : String → Bool) (mountOk : Bool)
    (w : FsState) (c : Container) : Except TurbineError Unit × FsState :=
  setup_volumesLoop hostFs isDir mountOk w c.root_path c.config.volumes

/-- `FilesystemManager::create_working_directory` (lines 136-148); the
chmod has no modelled effect. -/
def create_working_directory (w : FsState) (c : Container) :
    Except TurbineError Unit × FsState :=
  match c.config.working_dir with
  | some working_dir =>
    (.ok (), w.addPath (c.root_path ++ ("/") ++ stripLeadingSlash working_dir))
  | none => (.ok (), w)

/-! ### src/process.rs leader command -/

inductive PreExecStep where
  | setuid (uid : Nat)
  | setgid (gid : Nat)
  | setgroups (groups : List Nat)
deriving DecidableEq

structure BuiltCommand where
  program : String
  args : List String
  pre_exec : List PreExecStep
  current_dir : Option String
  env : List (String × String)
deriving DecidableEq

/-- `ProcessManager::build_command` (src/process.rs lines 39-115): the
`pre_exec` list holds the child-side hooks in registration order, which
is the order the child runs them in before exec. -/
def build_command (c : Container) : BuiltCommand :=
  let args := ["--pid", "--net", "--mount", "--uts", "--ipc", "--fork"]
  let args := args ++ (match c.config.user with
    | some user => [("--user"), user]
    | none => [])
  let hooks := (match c.config.uid with
      | some uid => [PreExecStep.setuid uid]
      | none => [])
    ++ (match c.config.gid with
      | some gid => [PreExecStep.setgid gid]
      | none => [])
    ++ (match c.config.groups with
      | some groups => [PreExecStep.setgroups groups]
      | none => [])
  let args := args ++ [("chroot"), c.root_path] ++ c.config.command
  { program := ("unshare")
    args := args
    pre_exec := hooks
    current_dir := c.config.working_dir
    env := c.config.environment }

/-! ### TurbineRuntime::create_container (src/runtime.rs lines 46-70)

The pipeline in source order.  Each step's result feeds the next through
`?`; the filesystem, network-manager and registry states are threaded
explicitly.  Nothing in the source undoes a completed step when a later
one fails. -/

structure CreateOutcome where
  res : Except TurbineError String
  fs : FsState
  net : NetworkManager
  registry : List (String × Container)
deriving DecidableEq

def create_container (hostFs : HostFs) (isDir : String → Bool)
    (mountOk vethOk ifaceOk : Bool) (w : FsState) (net : NetworkManager)
    (registry : List (String × Container)) (config : ContainerConfig)
    (id : String) (now : Nat) : CreateOutcome :=
  match validate_container_security hostFs (Container.new config id now) with
  | .error e => ⟨.error e, w, net, registry⟩
  | .ok () =>
    let config := { config with environment := sanitize_environment config.environment }
    match validate_image_security config.image with
    | .error e => ⟨.error e, w, net, registry⟩
    | .ok () =>
      match config.validate hostFs.pathExists with
      | .error e => ⟨.error (TurbineError.fromAnyhow e), w, net, registry⟩
      | .ok () =>
        let container := Container.new config id now
        match create_container_root w container with
        | (.error e, w1) => ⟨.error e, w1, net, registry⟩
        | (.ok (), w1) =>
          match setup_volumes hostFs isDir mountOk w1 container with
          | (.error e, w2) => ⟨.error e, w2, net, registry⟩
          | (.ok (), w2) =>
            match create_working_directory w2 container with
            | (.error e, w3) => ⟨.error e, w3, net, registry⟩
            | (.ok (), w3) =>
              match net.setup_container_network vethOk ifaceOk container with
              | (.error e, net1) => ⟨.error e, w3, net1, registry⟩
              | (.ok (), net1) =>
                ⟨.ok container.id, w3, net1, insertA registry container.id container⟩

/-! ### Derived definitions used by the verification -/

/-- A sequence of `allocate_ips` calls, one per id; a failed call leaves
the manager unchanged, exactly as the source's early `?` returns do. -/
def runAlloc (m : NetworkManager) : List String → NetworkManager
  | [] => m
  | id :: rest => runAlloc (m.allocate_ips id).2 rest

/-- The resolv.conf rendering the specification describes, built from the
spec's words ("`nameserver X\n` per entry" of `config.network.dns`), for
comparison against what `setup_basic_files` actually writes. -/
def specResolvConf (dns : List String) : String :=
  String.join (dns.map (fun d => ("nameserver ") ++ d ++ ("\n")))

/-- The allocation-table invariant claim C9 states: every entry holds
exactly one address per family of the configured stack (one for a
single-stack config, an IPv4/IPv6 pair for dual-stack), and no address
occurs twice across the whole table. -/
def WellAllocated (m : NetworkManager) : Prop :=
  (∀ kv ∈ m.allocated_ips,
    match m.network_config with
    | .IPv4 _ _ => ∃ v4, kv.2 = [IpAddr.V4 v4]
    | .IPv6 _ _ => ∃ v6, kv.2 = [IpAddr.V6 v6]
    | .DualStack _ _ _ _ => ∃ v4 v6, kv.2 = [IpAddr.V4 v4, IpAddr.V6 v6]) ∧
  (m.allocated_ips.map Prod.snd).flatten.Nodup

/-! ### Concrete instances for counterexamples and witnesses -/

/-- A minimal well-formed config (scenario S1 of the spec). -/
def webConfig : ContainerConfig :=
  { ContainerConfig.default with name := ("web"), image := ("/img") }

/-- A Paused container record. -/
def pausedWeb : Container :=
  { Container.new webConfig ("cid-1") 0 with
      state := .Paused, pid := some 42, started_at := some 1 }

/-- A second Paused container record. -/
def pausedWeb2 : Container :=
  { Container.new webConfig ("cid-4") 0 with
      state := .Paused, pid := some 43, started_at := some 2 }

/-- A Running container record. -/
def runningWeb : Container :=
  { Container.new webConfig ("cid-4r") 0 with
      state := .Running, pid := some 44, started_at := some 2 }

/-- A container with uid, gid and groups all set. -/
def c3Container : Container :=
  Container.new
    { webConfig with uid := some 1000, gid := some 1000, groups := some [1000] }
    ("cid-3") 0

/-- A host on which every probe succeeds. -/
def okHostFs : HostFs := ⟨fun _ => true, fun _ => true, fun _ => true⟩

/-- A config declaring host port 8080. -/
def c2Config : ContainerConfig :=
  { ContainerConfig.default with
      name := ("web"), image := ("/img"), ports := [⟨8080, 8080, ("tcp")⟩] }

/-- A slirp4netns-mode network manager on which another container already
holds host port 8080. -/
def slirpNetConflict : NetworkManager :=
  { NetworkManager.new ("turbine0") true with port_mappings := [(8080, ("other"))] }

/-- A bridge-mode network manager on which another container already
holds host port 8080. -/
def bridgeNet : NetworkManager :=
  { NetworkManager.new ("turbine0") false with port_mappings := [(8080, ("other"))] }

/-- A container declaring host port 8080, for the bridge-mode run. -/
def c5Container : Container :=
  Container.new { webConfig with ports := [⟨8080, 80, ("tcp")⟩] } ("cid-5") 0

/-- A slirp4netns-mode manager on which another container holds 9090. -/
def c5wNet : NetworkManager :=
  { NetworkManager.new ("turbine0") true with port_mappings := [(9090, ("owner1"))] }

/-- A container declaring host port 9090, for the slirp4netns-mode run. -/
def c5wContainer : Container :=
  Container.new { webConfig with ports := [⟨9090, 80, ("tcp")⟩] } ("cid-5w") 0

/-- A container whose config carries a custom DNS list. -/
def c6Container : Container :=
  Container.new
    { webConfig with network := { NetworkSettings.default with dns := [("1.1.1.1")] } }
    ("cid-6") 0

/-- A config with uid 0 and no user name given. -/
def cfgUidZeroNoUser : ContainerConfig :=
  { webConfig with uid := some 0 }

/-- A config with an empty name. -/
def cfgEmptyName : ContainerConfig :=
  { ContainerConfig.default with image := ("/img") }

/-- A manager that already allocated an address to container "a". -/
def netWithA : NetworkManager :=
  { NetworkManager.new ("turbine0") true with
      allocated_ips := [(("a"), [IpAddr.V4 ⟨10, 88, 0, 2⟩])] }

/-- The dual-stack config of scenario S4: 10.88.0.0/24 + fd00::/64. -/
def dualCfg : NetworkConfig :=
  .DualStack ⟨10, 88, 0, 0⟩ 24 ⟨0xfd00, 0, 0, 0, 0, 0, 0, 0⟩ 64

/-- A fresh dual-stack manager. -/
def dualNet : NetworkManager :=
  NetworkManager.with_config ("turbine0") dualCfg true

/-! ## Theorems -/

/-! ### Association-list lemmas -/

theorem lookupA_insertA_ne {κ α : Type} [DecidableEq κ] (m : List (κ × α))
    (a k : κ) (v : α) (h : a ≠ k) : lookupA (insertA m a v) k = lookupA m k := by
  induction m with
  | nil => simp [insertA, lookupA, h]
  | cons kv rest ih =>
    obtain ⟨k0, w0⟩ := kv
    by_cases h0 : k0 = a
    · subst h0
      simp [insertA, lookupA, h]
    · simp [insertA, lookupA, h0, ih]

theorem lookupA_insertA_self {κ α : Type} [DecidableEq κ] (m : List (κ × α))
    (k : κ) (v : α) : lookupA (insertA m k v) k = some v := by
  induction m with
  | nil => simp [insertA, lookupA]
  | cons kv rest ih =>
    obtain ⟨k0, w0⟩ := kv
    by_cases h0 : k0 = k
    · subst h0
      simp [insertA, lookupA]
    · simp [insertA, lookupA, h0, ih]

theorem containsKeyA_insertA {κ α : Type} [DecidableEq κ] (m : List (κ × α))
    (a k : κ) (v : α) (h : containsKeyA m k = true) :
    containsKeyA (insertA m a v) k = true := by
  by_cases ha : a = k
  · subst ha
    simp [containsKeyA, lookupA_insertA_self]
  · simpa [containsKeyA, lookupA_insertA_ne m a k v ha] using h

theorem insertA_of_lookupA_none {κ α : Type} [DecidableEq κ] (m : List (κ × α))
    (k : κ) (v : α) (h : lookupA m k = none) : insertA m k v = m ++ [(k, v)] := by
  induction m with
  | nil => simp [insertA]
  | cons kv rest ih =>
    obtain ⟨k0, w0⟩ := kv
    by_cases h0 : k0 = k
    · subst h0
      simp [lookupA] at h
    · simp only [lookupA, if_neg h0] at h
      simp [insertA, h0, ih h]

/-! ### Container state lemmas -/

theorem is_running_false {c : Container} (h : c.state ≠ ContainerState.Running) :
    c.is_running = false := by
  simp [Container.is_running, h]

theorem is_running_true {c : Container} (h : c.state = ContainerState.Running) :
    c.is_running = true := by
  simp [Container.is_running, h]

/-! ### Claim C1 -/

/-- Claim C1, counterexample: the spec's state machine forbids `start` on
a Paused container and demands a ContainerError with no state change, but
`start_container` only rejects Running: on this concrete Paused record
(with the security and spawn calls succeeding) it returns Ok and moves
the record to Running with a fresh pid. -/
theorem C1_start_on_paused_succeeds :
    (start_container pausedWeb (.ok ()) (.ok 7) 5).1 = .ok () ∧
    (start_container pausedWeb (.ok ()) (.ok 7) 5).2.state = ContainerState.Running ∧
    (start_container pausedWeb (.ok ()) (.ok 7) 5).2 ≠ pausedWeb := by
  exact ⟨rfl, rfl, by decide⟩

/-- Claim C1, amended: the precondition each public operation actually
enforces is: `start` rejects exactly a Running container (so Paused and
Error containers can be started); `stop`, `pause`, `logs`, `exec` and
`stats` reject exactly a non-Running container; `resume` rejects exactly
a non-Paused container; `remove` without force rejects a Running
container.  Every rejection returns a ContainerError and leaves the
record — its state, pid and timestamps — unchanged. -/
theorem C1_state_guards (c : Container) (sec : Except TurbineError Unit)
    (spawn : Except TurbineError Nat) (pr : Except TurbineError Unit) (now : Nat) :
    (c.state = ContainerState.Running →
      start_container c sec spawn now =
        (.error (.ContainerError ("Container is already running")), c)) ∧
    (c.state ≠ ContainerState.Running →
      stop_container c pr now =
        (.error (.ContainerError ("Container is not running")), c)) ∧
    (c.state ≠ ContainerState.Running →
      pause_container c pr now =
        (.error (.ContainerError ("Container is not running")), c)) ∧
    (c.state ≠ ContainerState.Paused →
      resume_container c pr now =
        (.error (.ContainerError ("Container is not paused")), c)) ∧
    (c.state = ContainerState.Running →
      remove_container_guard c false =
        .error (.ContainerError ("Container is running. Use force=true to remove running container"))) ∧
    (c.state ≠ ContainerState.Running →
      get_container_logs_guard c = .error (.ContainerError ("Container is not running"))) ∧
    (c.state ≠ ContainerState.Running →
      execute_in_container_guard c = .error (.ContainerError ("Container is not running"))) ∧
    (c.state ≠ ContainerState.Running →
      get_container_stats_guard c = .error (.ContainerError ("Container is not running"))) := by
  refine ⟨?_, ?_, ?_, ?_, ?_, ?_, ?_, ?_⟩
  · intro h
    simp [start_container, is_running_true h]
  · intro h
    simp [stop_container, is_running_false h]
  · intro h
    simp [pause_container, is_running_false h]
  · intro h
    simp [resume_container, h]
  · intro h
    simp [remove_container_guard, is_running_true h]
  · intro h
    simp [get_container_logs_guard, is_running_false h]
  · intro h
    simp [execute_in_container_guard, is_running_false h]
  · intro h
    simp [get_container_stats_guard, is_running_false h]

/-! ### Claim C3 -/

/-- Claim C3 (code bug): on a container with uid, gid and groups all set,
`build_command` registers the child-side hooks setuid first, then setgid,
then setgroups — the reverse of the gid/groups-before-uid order the
specification mandates as a kernel constraint. -/
theorem C3_preexec_order_actual :
    (build_command c3Container).pre_exec =
      [PreExecStep.setuid 1000, PreExecStep.setgid 1000, PreExecStep.setgroups [1000]] := rfl

/-! ### Claim C4 -/

/-- Claim C4, counterexample: `stop_container` on a concrete Paused
container fails with ContainerError "Container is not running" and leaves
the record unchanged, although the spec permits stopping a Paused
container. -/
theorem C4_stop_on_paused_fails :
    (stop_container pausedWeb2 (.ok ()) 9).1 =
      .error (.ContainerError ("Container is not running")) ∧
    (stop_container pausedWeb2 (.ok ()) 9).2 = pausedWeb2 := ⟨rfl, rfl⟩

/-- Claim C4, amended: `stop` succeeds exactly on a Running container
(given the process stop succeeds), transitioning it to Stopped, clearing
the pid and stamping `stopped_at`; a Paused container is rejected with
ContainerError "Container is not running" and left unchanged. -/
theorem C4_stop_running (c : Container) (now : Nat)
    (h : c.state = ContainerState.Running) :
    (stop_container c (.ok ()) now).1 = .ok () ∧
    (stop_container c (.ok ()) now).2.state = ContainerState.Stopped ∧
    (stop_container c (.ok ()) now).2.pid = none ∧
    (stop_container c (.ok ()) now).2.stopped_at = some now ∧
    (∀ d : Container, d.state = ContainerState.Paused →
      stop_container d (.ok ()) now =
        (.error (.ContainerError ("Container is not running")), d)) := by
  refine ⟨?_, ?_, ?_, ?_, ?_⟩
  · simp [stop_container, is_running_true h]
  · simp [stop_container, is_running_true h, Container.set_state]
  · simp [stop_container, is_running_true h, Container.set_state]
  · simp [stop_container, is_running_true h, Container.set_state]
  · intro d hd
    have : d.state ≠ ContainerState.Running := by simp [hd]
    simp [stop_container, is_running_false this]

/-- Claim C4, witness: the amended theorem applied to a concrete Running
container. -/
theorem C4_stop_running_witness :
    (stop_container runningWeb (.ok ()) 9).1 = .ok () ∧
    (stop_container runningWeb (.ok ()) 9).2.state = ContainerState.Stopped ∧
    (stop_container runningWeb (.ok ()) 9).2.pid = none ∧
    (stop_container runningWeb (.ok ()) 9).2.stopped_at = some 9 ∧
    (∀ d : Container, d.state = ContainerState.Paused →
      stop_container d (.ok ()) 9 =
        (.error (.ContainerError ("Container is not running")), d)) :=
  C4_stop_running runningWeb 9 rfl

/-! ### Claim C7 -/

/-- Claim C7 (confirmed): when the writes are accepted,
`setup_uid_gid_mappings` performs exactly three writes, in this order:
"<container_uid> <host_uid> 1" to /proc/<pid>/uid_map, then "deny" to
/proc/<pid>/setgroups, then "<container_gid> <host_gid> 1" to
/proc/<pid>/gid_map. -/
theorem C7_uid_gid_mapping_writes (pid host_uid host_gid container_uid container_gid : Nat) :
    setup_uid_gid_mappings (fun _ => true) pid host_uid host_gid container_uid container_gid =
      (.ok (), [
        (("/proc/") ++ toString pid ++ ("/uid_map"),
          toString container_uid ++ (" ") ++ toString host_uid ++ (" 1")),
        (("/proc/") ++ toString pid ++ ("/setgroups"), ("deny")),
        (("/proc/") ++ toString pid ++ ("/gid_map"),
          toString container_gid ++ (" ") ++ toString host_gid ++ (" 1"))]) := by
  simp [setup_uid_gid_mappings]

/-! ### Claim C10 -/

/-- Claim C10 (confirmed): `allocate_ips` is idempotent per container: if
the id is already in `allocated_ips`, the call returns the stored list
and the whole manager — allocations included — is unchanged. -/
theorem C10_allocate_ips_idempotent (m : NetworkManager) (container_id : String)
    (ips : List IpAddr) (h : lookupA m.allocated_ips container_id = some ips) :
    m.allocate_ips container_id = (.ok ips, m) := by
  simp [NetworkManager.allocate_ips, h]

/-- Claim C10, witness: a manager that already maps "a" to 10.88.0.2. -/
theorem C10_allocate_ips_idempotent_witness :
    netWithA.allocate_ips ("a") = (.ok [IpAddr.V4 ⟨10, 88, 0, 2⟩], netWithA) :=
  C10_allocate_ips_idempotent netWithA ("a") [IpAddr.V4 ⟨10, 88, 0, 2⟩] rfl

/-! ### Filesystem write-log lemmas -/

theorem addPath_writes (w : FsState) (p : String) : (w.addPath p).writes = w.writes := by
  unfold FsState.addPath
  split <;> rfl

theorem writeFile_writes (w : FsState) (p content : String) :
    (w.writeFile p content).writes = w.writes ++ [(p, content)] := by
  simp [FsState.writeFile, addPath_writes]

theorem foldl_addPath_writes (g : String → String) :
    ∀ (l : List String) (w : FsState),
      (l.foldl (fun acc d => acc.addPath (g d)) w).writes = w.writes := by
  intro l
  induction l with
  | nil => intro w; rfl
  | cons d rest ih => intro w; rw [List.foldl_cons, ih, addPath_writes]

/-! ### Claim C6 -/

/-- Claim C6, amended: `create_container_root` writes
`<root_path>/etc/resolv.conf` with the fixed content
"nameserver 8.8.8.8\nnameserver 8.8.4.4\n" for every container,
regardless of `config.network.dns`; that content coincides with the
spec's per-entry rendering only for the default DNS list. -/
theorem C6_resolv_conf_fixed (w : FsState) (c : Container)
    (h : c.root_path ∉ w.paths) :
    (create_container_root w c).2.writes =
      w.writes ++
        [(c.root_path ++ ("/etc/resolv.conf"), resolvConfContent),
         (c.root_path ++ ("/etc/passwd"), passwdContent),
         (c.root_path ++ ("/etc/group"), groupContent),
         (c.root_path ++ ("/etc/hosts"), hostsContent)] ∧
    resolvConfContent = specResolvConf NetworkSettings.default.dns := by
  constructor
  · unfold create_container_root
    rw [if_neg h]
    simp [setup_basic_files, writeFile_writes, foldl_addPath_writes
      (fun d => c.root_path ++ ("/") ++ d), addPath_writes]
  · rfl

/-- Claim C6, witness: the amended theorem at a concrete container with a
custom DNS list and an empty filesystem. -/
theorem C6_resolv_conf_fixed_witness :
    (create_container_root ⟨[], []⟩ c6Container).2.writes =
      ([] : List (String × String)) ++
        [(c6Container.root_path ++ ("/etc/resolv.conf"), resolvConfContent),
         (c6Container.root_path ++ ("/etc/passwd"), passwdContent),
         (c6Container.root_path ++ ("/etc/group"), groupContent),
         (c6Container.root_path ++ ("/etc/hosts"), hostsContent)] ∧
    resolvConfContent = specResolvConf NetworkSettings.default.dns :=
  C6_resolv_conf_fixed ⟨[], []⟩ c6Container (by decide)

/-- Claim C6, counterexample: a container configured with dns
["1.1.1.1"] still gets the fixed default resolv.conf content, which
differs from the per-entry rendering of its DNS list that the claim
promises. -/
theorem C6_custom_dns_ignored :
    c6Container.config.network.dns = [("1.1.1.1")] ∧
    (create_container_root ⟨[], []⟩ c6Container).2.writes.head? =
      some (c6Container.root_path ++ ("/etc/resolv.conf"), resolvConfContent) ∧
    resolvConfContent ≠ specResolvConf c6Container.config.network.dns := by
  exact ⟨rfl, rfl, by decide⟩

/-! ### Allocation scan lemmas -/

theorem allocScanV4_shape (taken : IpAddr → Bool) (o0 o1 o2 : Nat) :
    ∀ (fuel s : Nat),
      (∃ ip, allocScanV4 taken o0 o1 o2 s fuel = .ok ip) ∨
      allocScanV4 taken o0 o1 o2 s fuel =
        .error (.NetworkError ("No available IPv4 addresses in subnet")) := by
  intro fuel
  induction fuel with
  | zero => intro s; exact .inr rfl
  | succ n ih =>
    intro s
    by_cases h : taken (.V4 ⟨o0, o1, o2, s⟩) = false
    · exact .inl ⟨⟨o0, o1, o2, s⟩, by simp [allocScanV4, h]⟩
    · by_cases h2 : s + 1 = 255
      · exact .inr (by simp [allocScanV4, h, h2])
      · rcases ih (s + 1) with ⟨ip, hip⟩ | herr
        · exact .inl ⟨ip, by simp [allocScanV4, h, h2, hip]⟩
        · exact .inr (by simp [allocScanV4, h, h2, herr])

theorem allocScanV6_shape (taken : IpAddr → Bool) (cid : String)
    (s0 s1 s2 s3 s4 s5 s6 : Nat) :
    ∀ (fuel s : Nat),
      (∃ ip, allocScanV6 taken cid s0 s1 s2 s3 s4 s5 s6 s fuel = .ok ip) ∨
      allocScanV6 taken cid s0 s1 s2 s3 s4 s5 s6 s fuel =
        .error (.NetworkError
          (("No available IPv6 addresses in subnet for container ") ++ cid)) := by
  intro fuel
  induction fuel with
  | zero => intro s; exact .inr rfl
  | succ n ih =>
    intro s
    by_cases h : taken (.V6 ⟨s0, s1, s2, s3, s4, s5, s6, s⟩) = false
    · exact .inl ⟨⟨s0, s1, s2, s3, s4, s5, s6, s⟩, by simp [allocScanV6, h]⟩
    · by_cases h2 : s + 1 = 65535
      · exact .inr (by simp [allocScanV6, h, h2])
      · rcases ih (s + 1) with ⟨ip, hip⟩ | herr
        · exact .inl ⟨ip, by simp [allocScanV6, h, h2, hip]⟩
        · exact .inr (by simp [allocScanV6, h, h2, herr])

theorem allocate_ipv4_error_shape (m : NetworkManager) (cid : String)
    (subnet : Ipv4Addr) (e : TurbineError)
    (h : m.allocate_ipv4 cid subnet = .error e) :
    e = .NetworkError ("No available IPv4 addresses in subnet") := by
  unfold NetworkManager.allocate_ipv4 at h
  cases he : existingV4 m cid with
  | some v4 => simp only [he] at h; exact Except.noConfusion h
  | none =>
    simp only [he] at h
    rcases allocScanV4_shape (takenIn m.allocated_ips) subnet.o0 subnet.o1 subnet.o2
      255 2 with ⟨ip, hip⟩ | herr
    · simp only [hip] at h
      exact Except.noConfusion h
    · rw [herr] at h
      exact (Except.error.inj h).symm

theorem allocate_ipv6_error_shape (m : NetworkManager) (cid : String)
    (subnet : Ipv6Addr) (e : TurbineError)
    (h : m.allocate_ipv6 cid subnet = .error e) :
    e = .NetworkError (("No available IPv6 addresses in subnet for container ") ++ cid) := by
  unfold NetworkManager.allocate_ipv6 at h
  cases he : existingV6 m cid with
  | some v6 => simp only [he] at h; exact Except.noConfusion h
  | none =>
    simp only [he] at h
    rcases allocScanV6_shape (takenIn m.allocated_ips) cid subnet.s0 subnet.s1
      subnet.s2 subnet.s3 subnet.s4 subnet.s5 subnet.s6 65535 2 with ⟨ip, hip⟩ | herr
    · simp only [hip] at h
      exact Except.noConfusion h
    · rw [herr] at h
      exact (Except.error.inj h).symm

theorem allocate_ips_port_mappings (m : NetworkManager) (cid : String) :
    (m.allocate_ips cid).2.port_mappings = m.port_mappings := by
  unfold NetworkManager.allocate_ips
  repeat' split
  all_goals rfl

theorem allocate_ips_error_shape (m : NetworkManager) (cid : String) (e : TurbineError)
    (h : (m.allocate_ips cid).1 = .error e) : ∃ msg, e = .NetworkError msg := by
  unfold NetworkManager.allocate_ips at h
  cases hl : lookupA m.allocated_ips cid with
  | some ips => simp only [hl] at h; exact Except.noConfusion h
  | none =>
    simp only [hl] at h
    cases hc : m.network_config with
    | IPv4 subnet plen =>
      simp only [hc] at h
      cases hv : m.allocate_ipv4 cid subnet with
      | error e2 =>
        simp only [hv] at h
        exact ⟨_, (Except.error.inj h) ▸ allocate_ipv4_error_shape m cid subnet e2 hv⟩
      | ok v4 => simp only [hv] at h; exact Except.noConfusion h
    | IPv6 subnet plen =>
      simp only [hc] at h
      cases hv : m.allocate_ipv6 cid subnet with
      | error e2 =>
        simp only [hv] at h
        exact ⟨_, (Except.error.inj h) ▸ allocate_ipv6_error_shape m cid subnet e2 hv⟩
      | ok v6 => simp only [hv] at h; exact Except.noConfusion h
    | DualStack s4 p4 s6 p6 =>
      simp only [hc] at h
      cases hv : m.allocate_ipv4 cid s4 with
      | error e2 =>
        simp only [hv] at h
        exact ⟨_, (Except.error.inj h) ▸ allocate_ipv4_error_shape m cid s4 e2 hv⟩
      | ok v4 =>
        simp only [hv] at h
        cases hw : m.allocate_ipv6 cid s6 with
        | error e2 =>
          simp only [hw] at h
          exact ⟨_, (Except.error.inj h) ▸ allocate_ipv6_error_shape m cid s6 e2 hw⟩
        | ok v6 => simp only [hw] at h; exact Except.noConfusion h

/-! ### slirp4netns port-loop lemmas -/

theorem slirpPortLoop_preserves (cid : String) (k : Nat) (v : String) :
    ∀ (ps : List PortMapping) (pm : List (Nat × String)),
      lookupA pm k = some v → lookupA (slirpPortLoop cid pm ps).2 k = some v := by
  intro ps
  induction ps with
  | nil => intro pm h; simpa [slirpPortLoop] using h
  | cons p rest ih =>
    intro pm h
    by_cases hc : containsKeyA pm p.host_port = true
    · simpa [slirpPortLoop, hc] using h
    · have hk : p.host_port ≠ k := by
        intro he
        exact hc (by simp [containsKeyA, he, h])
      rw [slirpPortLoop, if_neg hc]
      exact ih _ (by rw [lookupA_insertA_ne pm p.host_port k cid hk]; exact h)

theorem slirpPortLoop_conflict (cid : String) (p : PortMapping) :
    ∀ (ps : List PortMapping) (pm : List (Nat × String)),
      p ∈ ps → containsKeyA pm p.host_port = true →
      ∃ msg, (slirpPortLoop cid pm ps).1 = .error (.NetworkError msg) := by
  intro ps
  induction ps with
  | nil => intro pm h _; exact absurd h (List.not_mem_nil p)
  | cons q rest ih =>
    intro pm hmem hcon
    by_cases hc : containsKeyA pm q.host_port = true
    · exact ⟨_, by rw [slirpPortLoop, if_pos hc]⟩
    · rcases List.mem_cons.mp hmem with he | hr
      · exact absurd (he ▸ hcon) hc
      · rw [slirpPortLoop, if_neg hc]
        exact ih _ hr (containsKeyA_insertA pm q.host_port p.host_port cid hcon)

/-! ### Claim C5 -/

/-- Claim C5, counterexample: in user-namespace (bridge) mode, setting up
networking for a container whose host port 8080 is already claimed by
another container succeeds — no port-conflict check runs and no mapping
is recorded — although the claim promises a NetworkError in both modes. -/
theorem C5_bridge_mode_ignores_conflict :
    bridgeNet.use_slirp4netns = false ∧
    containsKeyA bridgeNet.port_mappings 8080 = true ∧
    c5Container.config.ports = [⟨8080, 80, ("tcp")⟩] ∧
    (bridgeNet.setup_container_network true true c5Container).1 = .ok () ∧
    (bridgeNet.setup_container_network true true c5Container).2.port_mappings =
      bridgeNet.port_mappings := by
  exact ⟨rfl, rfl, rfl, rfl, rfl⟩

/-- Claim C5, amended: only slirp4netns mode rejects a duplicate host
port: there `setup_container_network` fails with a NetworkError ("Port
<H> is already in use" for the first conflicting port) and the
conflicting host_port keeps its previous owner in `port_mappings`; in
user-namespace (bridge) mode no port-conflict check is performed and
`port_mappings` is never touched. -/
theorem C5_port_conflict (m : NetworkManager) (c : Container) (p : PortMapping)
    (oldid : String) (hm : m.use_slirp4netns = true) (hp : p ∈ c.config.ports)
    (hold : lookupA m.port_mappings p.host_port = some oldid) :
    ((∃ msg, (m.setup_container_network true true c).1 =
        .error (.NetworkError msg)) ∧
      lookupA (m.setup_container_network true true c).2.port_mappings p.host_port =
        some oldid) ∧
    (∀ (m2 : NetworkManager) (vethOk ifaceOk : Bool) (c2 : Container),
      m2.use_slirp4netns = false →
      (m2.setup_container_network vethOk ifaceOk c2).2.port_mappings =
        m2.port_mappings) := by
  constructor
  · set m0 : NetworkManager :=
      { m with container_ports := insertA m.container_ports c.id c.config.ports } with hm0def
    have hmode : m0.use_slirp4netns = true := hm
    have hpm0 : m0.port_mappings = m.port_mappings := rfl
    have hrun : m.setup_container_network true true c = m0.setup_slirp4netns_network c := by
      unfold NetworkManager.setup_container_network
      rw [← hm0def, if_pos hmode]
    rw [hrun]
    unfold NetworkManager.setup_slirp4netns_network
    rcases hal : m0.allocate_ips c.id with ⟨res, m1⟩
    have hm1pm : m1.port_mappings = m.port_mappings := by
      have := allocate_ips_port_mappings m0 c.id
      rw [hal] at this
      exact this.trans hpm0
    cases res with
    | error e =>
      have he : ∃ msg, e = .NetworkError msg := by
        apply allocate_ips_error_shape m0 c.id e
        rw [hal]
      obtain ⟨msg, hmsg⟩ := he
      refine ⟨⟨msg, by simp [hmsg]⟩, ?_⟩
      simpa [hm1pm] using hold
    | ok ips =>
      rcases hloop : slirpPortLoop c.id m1.port_mappings c.config.ports with ⟨lres, pm⟩
      have hcon : containsKeyA m1.port_mappings p.host_port = true := by
        simp [containsKeyA, hm1pm, hold]
      have herr := slirpPortLoop_conflict c.id p c.config.ports m1.port_mappings hp hcon
      rw [hloop] at herr
      obtain ⟨msg, hmsg⟩ := herr
      have hpres := slirpPortLoop_preserves c.id p.host_port oldid c.config.ports
        m1.port_mappings (by rw [hm1pm]; exact hold)
      rw [hloop] at hpres
      cases lres with
      | error e2 =>
        refine ⟨⟨msg, ?_⟩, ?_⟩
        · simp only [hloop]
          simpa using hmsg
        · simp only [hloop]
          simpa using hpres
      | ok u => exact absurd hmsg (by simp)
  · intro m2 vethOk ifaceOk c2 hm2
    set m0 : NetworkManager :=
      { m2 with container_ports := insertA m2.container_ports c2.id c2.config.ports } with hm0def
    have hmode : m0.use_slirp4netns = false := hm2
    have hrun : m2.setup_container_network vethOk ifaceOk c2 =
        m0.setup_user_namespace_network vethOk ifaceOk c2 := by
      unfold NetworkManager.setup_container_network
      rw [← hm0def]
      simp [hmode, hm2]
    rw [hrun]
    unfold NetworkManager.setup_user_namespace_network
    rcases hal : m0.allocate_ips c2.id with ⟨res, m1⟩
    have hm1pm : m1.port_mappings = m2.port_mappings := by
      have := allocate_ips_port_mappings m0 c2.id
      rw [hal] at this
      exact this
    cases res with
    | error e => simpa using hm1pm
    | ok ips =>
      cases vethOk with
      | false => simpa using hm1pm
      | true => simpa using hm1pm

/-- Claim C5, witness: the amended theorem applied to a slirp4netns-mode
manager on which container "owner1" already holds host port 9090. -/
theorem C5_port_conflict_witness :
    ((∃ msg, (c5wNet.setup_container_network true true c5wContainer).1 =
        .error (.NetworkError msg)) ∧
      lookupA (c5wNet.setup_container_network true true c5wContainer).2.port_mappings
        9090 = some ("owner1")) ∧
    (∀ (m2 : NetworkManager) (vethOk ifaceOk : Bool) (c2 : Container),
      m2.use_slirp4netns = false →
      (m2.setup_container_network vethOk ifaceOk c2).2.port_mappings =
        m2.port_mappings) :=
  C5_port_conflict c5wNet c5wContainer ⟨9090, 80, ("tcp")⟩ ("owner1") rfl
    (by decide) rfl

/-! ### Claim C8 -/

theorem validatePorts_ok_iff (ps : List PortMapping) :
    validatePorts ps = .ok () ↔
      ∀ p ∈ ps, ¬(p.host_port = 0 ∨ p.container_port = 0) := by
  induction ps with
  | nil => simp [validatePorts]
  | cons p rest ih =>
    by_cases h : p.host_port = 0 ∨ p.container_port = 0
    · rw [validatePorts, if_pos h]
      constructor
      · intro hc; exact Except.noConfusion hc
      · intro hall; exact (hall p (List.mem_cons_self p rest) h).elim
    · rw [validatePorts, if_neg h, ih]
      constructor
      · intro hall q hq
        rcases List.mem_cons.mp hq with rfl | hq2
        · exact h
        · exact hall q hq2
      · intro hall q hq; exact hall q (List.mem_cons_of_mem p hq)

theorem validateVolumes_ok_iff (ex : String → Bool) (vs : List VolumeMount) :
    validateVolumes ex vs = .ok () ↔ ∀ v ∈ vs, ¬(ex v.host_path = false) := by
  induction vs with
  | nil => simp [validateVolumes]
  | cons v rest ih =>
    by_cases h : ex v.host_path = false
    · rw [validateVolumes, if_pos h]
      constructor
      · intro hc; exact Except.noConfusion hc
      · intro hall; exact (hall v (List.mem_cons_self v rest) h).elim
    · rw [validateVolumes, if_neg h, ih]
      constructor
      · intro hall q hq
        rcases List.mem_cons.mp hq with rfl | hq2
        · exact h
        · exact hall q hq2
      · intro hall q hq; exact hall q (List.mem_cons_of_mem v hq)

theorem userNotRoot_iff (user : Option String) :
    userNotRoot user = true ↔ ∃ u, user = some u ∧ u ≠ "root" := by
  cases user with
  | none => simp [userNotRoot]
  | some u => simp [userNotRoot]

/-- Claim C8, amended: `validate(cfg)` fails exactly when the name is
empty, or the image is empty, or some port mapping has a zero port, or
some volume host path does not exist, or uid = 0 while a user name IS
given and differs from "root" — with uid = 0 and no user given it
succeeds; and the failure is an anyhow error that `From<anyhow::Error>`
turns into RuntimeError, not ConfigError. -/
theorem C8_validate_ok_iff (ex : String → Bool) (cfg : ContainerConfig) :
    ContainerConfig.validate ex cfg = .ok () ↔ ¬ validateRejects ex cfg := by
  unfold ContainerConfig.validate validateRejects
  by_cases h1 : cfg.name = ""
  · simp [h1]
  · rw [if_neg h1]
    by_cases h2 : cfg.image = ""
    · simp [h1, h2]
    · rw [if_neg h2]
      cases hp : validatePorts cfg.ports with
      | error e =>
        have hbad : ¬ ∀ p ∈ cfg.ports, ¬(p.host_port = 0 ∨ p.container_port = 0) := by
          intro hall
          rw [(validatePorts_ok_iff cfg.ports).mpr hall] at hp
          exact Except.noConfusion hp
        push_neg at hbad
        obtain ⟨p, hpmem, hpbad⟩ := hbad
        constructor
        · intro hcontra; exact Except.noConfusion hcontra
        · intro hno
          exact absurd (.inr (.inr (.inl ⟨p, hpmem, hpbad⟩))) hno
      | ok u =>
        obtain ⟨⟩ := u
        have hports := (validatePorts_ok_iff cfg.ports).mp hp
        cases hv : validateVolumes ex cfg.volumes with
        | error e =>
          have hbad : ¬ ∀ v ∈ cfg.volumes, ¬(ex v.host_path = false) := by
            intro hall
            rw [(validateVolumes_ok_iff ex cfg.volumes).mpr hall] at hv
            exact Except.noConfusion hv
          push_neg at hbad
          obtain ⟨v, hvmem, hvbad⟩ := hbad
          constructor
          · intro hcontra; exact Except.noConfusion hcontra
          · intro hno
            exact absurd (.inr (.inr (.inr (.inl ⟨v, hvmem, hvbad⟩)))) hno
        | ok u2 =>
          obtain ⟨⟩ := u2
          have hvols := (validateVolumes_ok_iff ex cfg.volumes).mp hv
          cases hu : cfg.uid with
          | none =>
            simp only []
            constructor
            · intro _
              rintro (hno | hno | hno | hno | hno)
              · exact h1 hno
              · exact h2 hno
              · obtain ⟨p, hpm, hpb⟩ := hno; exact hports p hpm hpb
              · obtain ⟨v, hvm, hvb⟩ := hno; exact hvols v hvm hvb
              · exact Option.noConfusion hno.1
            · intro _; trivial
          | some uid =>
            simp only []
            by_cases hz : uid = 0 ∧ userNotRoot cfg.user = true
            · rw [if_pos hz]
              constructor
              · intro hcontra; exact Except.noConfusion hcontra
              · intro hno
                refine absurd (.inr (.inr (.inr (.inr ⟨?_, ?_⟩)))) hno
                · rw [hz.1]
                · exact (userNotRoot_iff cfg.user).mp hz.2
            · rw [if_neg hz]
              constructor
              · intro _
                rintro (hno | hno | hno | hno | hno)
                · exact h1 hno
                · exact h2 hno
                · obtain ⟨p, hpm, hpb⟩ := hno; exact hports p hpm hpb
                · obtain ⟨v, hvm, hvb⟩ := hno; exact hvols v hvm hvb
                · refine hz ⟨?_, ?_⟩
                  · exact (Option.some.inj hno.1)
                  · exact (userNotRoot_iff cfg.user).mpr hno.2
              · intro _; trivial

/-- Claim C8, counterexample: a config with uid 0 and NO user given
passes `validate` although the claim says it must fail; and a failing
`validate` (empty name) surfaces through `From<anyhow::Error>` as
RuntimeError, not as the ConfigError the claim names. -/
theorem C8_uid_zero_no_user_passes :
    cfgUidZeroNoUser.uid = some 0 ∧
    cfgUidZeroNoUser.user ≠ some ("root") ∧
    ContainerConfig.validate (fun _ => true) cfgUidZeroNoUser = .ok () ∧
    ContainerConfig.validate (fun _ => true) cfgEmptyName =
      .error ("Container name cannot be empty") ∧
    TurbineError.fromAnyhow ("Container name cannot be empty") ≠
      TurbineError.ConfigError ("Container name cannot be empty") := by
  exact ⟨rfl, by decide, rfl, rfl, by decide⟩

/-! ### Claim C9 -/

theorem allocScanV4_ok_taken (taken : IpAddr → Bool) (o0 o1 o2 : Nat) :
    ∀ (fuel s : Nat) (ip : Ipv4Addr),
      allocScanV4 taken o0 o1 o2 s fuel = .ok ip → taken (.V4 ip) = false := by
  intro fuel
  induction fuel with
  | zero => intro s ip h; exact Except.noConfusion h
  | succ n ih =>
    intro s ip h
    simp only [allocScanV4] at h
    by_cases ht : taken (.V4 ⟨o0, o1, o2, s⟩) = false
    · rw [if_pos ht] at h
      exact (Except.ok.inj h) ▸ ht
    · rw [if_neg ht] at h
      by_cases h2 : s + 1 = 255
      · rw [if_pos h2] at h; exact Except.noConfusion h
      · rw [if_neg h2] at h; exact ih (s + 1) ip h

theorem allocScanV6_ok_taken (taken : IpAddr → Bool) (cid : String)
    (s0 s1 s2 s3 s4 s5 s6 : Nat) :
    ∀ (fuel s : Nat) (ip : Ipv6Addr),
      allocScanV6 taken cid s0 s1 s2 s3 s4 s5 s6 s fuel = .ok ip →
        taken (.V6 ip) = false := by
  intro fuel
  induction fuel with
  | zero => intro s ip h; exact Except.noConfusion h
  | succ n ih =>
    intro s ip h
    simp only [allocScanV6] at h
    by_cases ht : taken (.V6 ⟨s0, s1, s2, s3, s4, s5, s6, s⟩) = false
    · rw [if_pos ht] at h
      exact (Except.ok.inj h) ▸ ht
    · rw [if_neg ht] at h
      by_cases h2 : s + 1 = 65535
      · rw [if_pos h2] at h; exact Except.noConfusion h
      · rw [if_neg h2] at h; exact ih (s + 1) ip h

theorem takenIn_false_not_mem (al : List (String × List IpAddr)) (ip : IpAddr)
    (h : takenIn al ip = false) : ∀ kv ∈ al, ip ∉ kv.2 := by
  simp only [takenIn, List.any_eq_false, decide_eq_true_eq] at h
  exact h

theorem allocate_ipv4_fresh (m : NetworkManager) (cid : String) (subnet : Ipv4Addr)
    (v4 : Ipv4Addr) (hl : lookupA m.allocated_ips cid = none)
    (h : m.allocate_ipv4 cid subnet = .ok v4) :
    takenIn m.allocated_ips (.V4 v4) = false := by
  unfold NetworkManager.allocate_ipv4 at h
  have he : existingV4 m cid = none := by simp [existingV4, hl]
  simp only [he] at h
  exact allocScanV4_ok_taken (takenIn m.allocated_ips) subnet.o0 subnet.o1 subnet.o2
    255 2 v4 h

theorem allocate_ipv6_fresh (m : NetworkManager) (cid : String) (subnet : Ipv6Addr)
    (v6 : Ipv6Addr) (hl : lookupA m.allocated_ips cid = none)
    (h : m.allocate_ipv6 cid subnet = .ok v6) :
    takenIn m.allocated_ips (.V6 v6) = false := by
  unfold NetworkManager.allocate_ipv6 at h
  have he : existingV6 m cid = none := by simp [existingV6, hl]
  simp only [he] at h
  exact allocScanV6_ok_taken (takenIn m.allocated_ips) cid subnet.s0 subnet.s1
    subnet.s2 subnet.s3 subnet.s4 subnet.s5 subnet.s6 65535 2 v6 h

theorem mem_flattenIps {al : List (String × List IpAddr)} {ip : IpAddr}
    (h : ip ∈ (al.map Prod.snd).flatten) : ∃ kv ∈ al, ip ∈ kv.2 := by
  rcases List.mem_flatten.mp h with ⟨s, hs, hip⟩
  rcases List.mem_map.mp hs with ⟨kv, hkv, rfl⟩
  exact ⟨kv, hkv, hip⟩

/-- Inserting a fresh entry whose addresses are all unallocated keeps
`WellAllocated`, provided the entry's shape matches the configured stack. -/
theorem wellAllocated_insert (m : NetworkManager) (cid : String) (ips : List IpAddr)
    (h : WellAllocated m) (hl : lookupA m.allocated_ips cid = none)
    (hshape : match m.network_config with
      | .IPv4 _ _ => ∃ v4, ips = [IpAddr.V4 v4]
      | .IPv6 _ _ => ∃ v6, ips = [IpAddr.V6 v6]
      | .DualStack _ _ _ _ => ∃ v4 v6, ips = [IpAddr.V4 v4, IpAddr.V6 v6])
    (hnodup : ips.Nodup)
    (hfresh : ∀ ip ∈ ips, ∀ kv ∈ m.allocated_ips, ip ∉ kv.2) :
    WellAllocated { m with allocated_ips := insertA m.allocated_ips cid ips } := by
  rw [WellAllocated]
  rw [insertA_of_lookupA_none _ _ _ hl]
  constructor
  · intro kv hkv
    rcases List.mem_append.mp hkv with hold | hnew
    · exact h.1 kv hold
    · rw [List.mem_singleton.mp hnew]
      exact hshape
  · rw [List.map_append, List.flatten_append]
    rw [List.nodup_append]
    refine ⟨h.2, by simpa using hnodup, ?_⟩
    intro ip hip
    have ⟨kv, hkv, hmem⟩ := mem_flattenIps hip
    simp only [List.map_cons, List.map_nil, List.flatten_cons, List.flatten_nil,
      List.append_nil]
    intro hip2
    exact hfresh ip hip2 kv hkv hmem

theorem allocate_ips_preserves (m : NetworkManager) (cid : String)
    (h : WellAllocated m) : WellAllocated (m.allocate_ips cid).2 := by
  unfold NetworkManager.allocate_ips
  cases hl : lookupA m.allocated_ips cid with
  | some ips => simpa using h
  | none =>
    cases hc : m.network_config with
    | IPv4 subnet plen =>
      cases hv : m.allocate_ipv4 cid subnet with
      | error e => simp only [hv]; simpa using h
      | ok v4 =>
        simp only [hv]
        rw [← hc]
        apply wellAllocated_insert m cid [IpAddr.V4 v4] h hl
        · rw [hc]
          exact ⟨v4, rfl⟩
        · simp
        · intro ip hip
          rw [List.mem_singleton.mp hip]
          exact takenIn_false_not_mem _ _ (allocate_ipv4_fresh m cid subnet v4 hl hv)
    | IPv6 subnet plen =>
      cases hv : m.allocate_ipv6 cid subnet with
      | error e => simp only [hv]; simpa using h
      | ok v6 =>
        simp only [hv]
        rw [← hc]
        apply wellAllocated_insert m cid [IpAddr.V6 v6] h hl
        · rw [hc]
          exact ⟨v6, rfl⟩
        · simp
        · intro ip hip
          rw [List.mem_singleton.mp hip]
          exact takenIn_false_not_mem _ _ (allocate_ipv6_fresh m cid subnet v6 hl hv)
    | DualStack s4 p4 s6 p6 =>
      cases hv : m.allocate_ipv4 cid s4 with
      | error e => simp only [hv]; simpa using h
      | ok v4 =>
        cases hw : m.allocate_ipv6 cid s6 with
        | error e => simp only [hv, hw]; simpa using h
        | ok v6 =>
          simp only [hv, hw]
          rw [← hc]
          apply wellAllocated_insert m cid [IpAddr.V4 v4, IpAddr.V6 v6] h hl
          · rw [hc]
            exact ⟨v4, v6, rfl⟩
          · simp
          · intro ip hip
            rcases List.mem_cons.mp hip with rfl | hip2
            · exact takenIn_false_not_mem _ _ (allocate_ipv4_fresh m cid s4 v4 hl hv)
            · rw [List.mem_singleton.mp hip2]
              exact takenIn_false_not_mem _ _ (allocate_ipv6_fresh m cid s6 v6 hl hw)

/-- Claim C9 (confirmed): after any sequence of `allocate_ips` calls from
any well-allocated state (a freshly constructed manager in particular),
every id in `allocated_ips` holds exactly one address for a single-stack
config and exactly one IPv4/IPv6 pair for dual-stack, all allocated
addresses are pairwise distinct; and the scan starts at host-part 2, so
under dual-stack 10.88.0.0/24 + fd00::/64 three successive containers
receive 10.88.0.2/.3/.4 and fd00::2/::3/::4. -/
theorem C9_allocation_invariant :
    (∀ (m : NetworkManager) (ids : List String),
      WellAllocated m → WellAllocated (runAlloc m ids)) ∧
    (∀ (bridge : String) (cfg : NetworkConfig) (slirp : Bool),
      WellAllocated (NetworkManager.with_config bridge cfg slirp)) ∧
    (runAlloc dualNet [("a"), ("b"), ("c")]).allocated_ips =
      [(("a"), [IpAddr.V4 ⟨10, 88, 0, 2⟩, IpAddr.V6 ⟨0xfd00, 0, 0, 0, 0, 0, 0, 2⟩]),
       (("b"), [IpAddr.V4 ⟨10, 88, 0, 3⟩, IpAddr.V6 ⟨0xfd00, 0, 0, 0, 0, 0, 0, 3⟩]),
       (("c"), [IpAddr.V4 ⟨10, 88, 0, 4⟩, IpAddr.V6 ⟨0xfd00, 0, 0, 0, 0, 0, 0, 4⟩])] := by
  refine ⟨?_, ?_, by decide⟩
  · intro m ids h
    induction ids generalizing m with
    | nil => exact h
    | cons id rest ih => exact ih _ (allocate_ips_preserves m id h)
  · intro bridge cfg slirp
    constructor
    · intro kv hkv
      exact absurd hkv (List.not_mem_nil kv)
    · simp [NetworkManager.with_config, NetworkManager.new]

/-! ### Claim C2 -/

theorem addPath_sub (w : FsState) (p : String) : w.paths ⊆ (w.addPath p).paths := by
  unfold FsState.addPath
  split
  · exact List.Subset.refl _
  · exact List.subset_append_left _ _

theorem writeFile_sub (w : FsState) (p content : String) :
    w.paths ⊆ (w.writeFile p content).paths := by
  unfold FsState.writeFile
  exact addPath_sub w p

theorem foldl_addPath_sub (g : String → String) :
    ∀ (l : List String) (w : FsState),
      w.paths ⊆ (l.foldl (fun acc d => acc.addPath (g d)) w).paths := by
  intro l
  induction l with
  | nil => intro w; exact List.Subset.refl _
  | cons d rest ih =>
    intro w
    rw [List.foldl_cons]
    exact List.Subset.trans (addPath_sub w (g d)) (ih _)

theorem setup_basic_files_sub (w : FsState) (root_path : String) :
    w.paths ⊆ (setup_basic_files w root_path).paths := by
  unfold setup_basic_files
  exact List.Subset.trans (writeFile_sub _ _ _)
    (List.Subset.trans (writeFile_sub _ _ _)
      (List.Subset.trans (writeFile_sub _ _ _) (writeFile_sub _ _ _)))

theorem create_container_root_sub (w : FsState) (c : Container) :
    w.paths ⊆ (create_container_root w c).2.paths := by
  unfold create_container_root
  split
  · exact List.Subset.refl _
  · exact List.Subset.trans (addPath_sub w c.root_path)
      (List.Subset.trans (foldl_addPath_sub _ subdirsList _)
        (setup_basic_files_sub _ _))

theorem setup_volumesLoop_sub (hostFs : HostFs) (isDir : String → Bool)
    (mountOk : Bool) (root_path : String) :
    ∀ (vs : List VolumeMount) (w : FsState),
      w.paths ⊆ (setup_volumesLoop hostFs isDir mountOk w root_path vs).2.paths := by
  intro vs
  induction vs with
  | nil => intro w; exact List.Subset.refl _
  | cons v rest ih =>
    intro w
    rw [setup_volumesLoop]
    simp only []
    repeat' split
    all_goals
      first
        | exact List.Subset.refl _
        | exact addPath_sub _ _
        | exact List.Subset.trans (addPath_sub _ _) (addPath_sub _ _)
        | exact ih _
        | exact List.Subset.trans (addPath_sub _ _) (ih _)
        | exact List.Subset.trans
            (List.Subset.trans (addPath_sub _ _) (addPath_sub _ _)) (ih _)

theorem setup_volumes_sub (hostFs : HostFs) (isDir : String → Bool) (mountOk : Bool)
    (w : FsState) (c : Container) :
    w.paths ⊆ (setup_volumes hostFs isDir mountOk w c).2.paths :=
  setup_volumesLoop_sub hostFs isDir mountOk c.root_path c.config.volumes w

theorem create_working_directory_sub (w : FsState) (c : Container) :
    w.paths ⊆ (create_working_directory w c).2.paths := by
  unfold create_working_directory
  cases c.config.working_dir with
  | some wd => exact addPath_sub _ _
  | none => exact List.Subset.refl _

/-- Claim C2, amended: a failure at any step of `create_container` returns
the original error and registers nothing, but the steps already performed
are NOT torn down: no path created by an earlier step is ever removed (the
filesystem only grows, so in particular the root_path tree persists), and
the network manager keeps the `container_ports` entry inserted before a
network failure. -/
theorem C2_create_failure_no_rollback (hostFs : HostFs) (isDir : String → Bool)
    (mountOk vethOk ifaceOk : Bool) (w : FsState) (net : NetworkManager)
    (registry : List (String × Container)) (config : ContainerConfig)
    (id : String) (now : Nat) :
    w.paths ⊆
      (create_container hostFs isDir mountOk vethOk ifaceOk w net registry
        config id now).fs.paths ∧
    (∀ e, (create_container hostFs isDir mountOk vethOk ifaceOk w net registry
        config id now).res = .error e →
      (create_container hostFs isDir mountOk vethOk ifaceOk w net registry
        config id now).registry = registry) := by
  unfold create_container
  cases hs : validate_container_security hostFs (Container.new config id now) with
  | error e =>
    simp only [hs]
    exact ⟨List.Subset.refl _, fun _ _ => trivial⟩
  | ok u =>
    obtain ⟨⟩ := u
    simp only [hs]
    cases hi : validate_image_security
        { config with environment := sanitize_environment config.environment }.image with
    | error e =>
      simp only [hi]
      exact ⟨List.Subset.refl _, fun _ _ => trivial⟩
    | ok u =>
      obtain ⟨⟩ := u
      simp only [hi]
      cases hval : ContainerConfig.validate hostFs.pathExists
          { config with environment := sanitize_environment config.environment } with
      | error e =>
        simp only [hval]
        exact ⟨List.Subset.refl _, fun _ _ => trivial⟩
      | ok u =>
        obtain ⟨⟩ := u
        simp only [hval]
        rcases hroot : create_container_root w
            (Container.new
              { config with environment := sanitize_environment config.environment }
              id now) with ⟨res1, w1⟩
        have hsub1 : w.paths ⊆ w1.paths := by
          have := create_container_root_sub w
            (Container.new
              { config with environment := sanitize_environment config.environment }
              id now)
          rw [hroot] at this
          exact this
        cases res1 with
        | error e =>
          simp only [hroot]
          exact ⟨hsub1, fun _ _ => trivial⟩
        | ok u =>
          obtain ⟨⟩ := u
          simp only [hroot]
          rcases hvol : setup_volumes hostFs isDir mountOk w1
              (Container.new
                { config with environment := sanitize_environment config.environment }
                id now) with ⟨res2, w2⟩
          have hsub2 : w.paths ⊆ w2.paths := by
            have := setup_volumes_sub hostFs isDir mountOk w1
              (Container.new
                { config with environment := sanitize_environment config.environment }
                id now)
            rw [hvol] at this
            exact List.Subset.trans hsub1 this
          cases res2 with
          | error e =>
            simp only [hvol]
            exact ⟨hsub2, fun _ _ => trivial⟩
          | ok u =>
            obtain ⟨⟩ := u
            simp only [hvol]
            rcases hwd : create_working_directory w2
                (Container.new
                  { config with environment := sanitize_environment config.environment }
                  id now) with ⟨res3, w3⟩
            have hsub3 : w.paths ⊆ w3.paths := by
              have := create_working_directory_sub w2
                (Container.new
                  { config with environment := sanitize_environment config.environment }
                  id now)
              rw [hwd] at this
              exact List.Subset.trans hsub2 this
            cases res3 with
            | error e =>
              simp only [hwd]
              exact ⟨hsub3, fun _ _ => trivial⟩
            | ok u =>
              obtain ⟨⟩ := u
              simp only [hwd]
              rcases hnet : net.setup_container_network vethOk ifaceOk
                  (Container.new
                    { config with environment := sanitize_environment config.environment }
                    id now) with ⟨res4, net1⟩
              cases res4 with
              | error e =>
                simp only [hnet]
                exact ⟨hsub3, fun _ _ => trivial⟩
              | ok u =>
                obtain ⟨⟩ := u
                simp only [hnet]
                exact ⟨hsub3, fun e he => absurd he (by simp)⟩

/-- Claim C2, witness: the amended theorem at the concrete failing run of
the counterexample. -/
theorem C2_create_failure_no_rollback_witness :
    (FsState.mk [("/tmp/turbine")] []).paths ⊆
      (create_container okHostFs (fun _ => true) true true true
        ⟨[("/tmp/turbine")], []⟩ slirpNetConflict [] c2Config ("cid-2") 0).fs.paths ∧
    (∀ e, (create_container okHostFs (fun _ => true) true true true
        ⟨[("/tmp/turbine")], []⟩ slirpNetConflict [] c2Config ("cid-2") 0).res = .error e →
      (create_container okHostFs (fun _ => true) true true true
        ⟨[("/tmp/turbine")], []⟩ slirpNetConflict [] c2Config ("cid-2") 0).registry = []) :=
  C2_create_failure_no_rollback okHostFs (fun _ => true) true true true
    ⟨[("/tmp/turbine")], []⟩ slirpNetConflict [] c2Config ("cid-2") 0

/-- Claim C2, counterexample: a create that fails at the network step (a
slirp4netns port conflict) returns the original NetworkError and registers
nothing — but the root_path directory tree created by the filesystem step
still exists afterwards, and the network manager still holds the
container's `container_ports` entry, contradicting the claimed reverse
teardown. -/
theorem C2_no_teardown_on_network_failure :
    (create_container okHostFs (fun _ => true) true true true
      ⟨[("/tmp/turbine")], []⟩ slirpNetConflict [] c2Config ("cid-2") 0).res =
      .error (.NetworkError ("Port 8080 is already in use")) ∧
    ("/tmp/turbine/cid-2") ∈
      (create_container okHostFs (fun _ => true) true true true
        ⟨[("/tmp/turbine")], []⟩ slirpNetConflict [] c2Config ("cid-2") 0).fs.paths ∧
    (create_container okHostFs (fun _ => true) true true true
      ⟨[("/tmp/turbine")], []⟩ slirpNetConflict [] c2Config ("cid-2") 0).registry = [] ∧
    lookupA (create_container okHostFs (fun _ => true) true true true
      ⟨[("/tmp/turbine")], []⟩ slirpNetConflict [] c2Config ("cid-2") 0).net.container_ports
      ("cid-2") = some [⟨8080, 8080, ("tcp")⟩] := by
  exact ⟨rfl, by decide, rfl, rfl⟩

end Turbine
